import Mathlib

/-!
Verification development for the mem0 HTTP memory-gateway service
(`src/mem0_service/main.py`).

The gateway is a thin adapter in front of an external semantic-memory
engine.  We embed the dynamically typed Python values the handlers
manipulate as an inductive `PyVal`, the engine as an oracle from engine
calls to results (success or a raised exception message), and each HTTP
handler as a pure function returning the list of engine calls it made
together with the HTTP response.  All definitions are translated line by
line from `main.py`.
-/

namespace Mem0Service

/-- Dynamically typed Python values flowing through the gateway:
`None`, booleans, numbers, strings, lists and (string-keyed) dicts.
Python ints and floats are both embedded as exact rationals `Rat`;
the claims under study never depend on rounding. -/
inductive PyVal where
  | none : PyVal
  | bool : Bool → PyVal
  | num : Rat → PyVal
  | str : String → PyVal
  | list : List PyVal → PyVal
  | dict : List (String × PyVal) → PyVal

/-- Python truthiness (`if x:`): `None`, `False`, `0`, `""`, `[]`, `{}`
are falsy, everything else truthy. -/
def pyTruthy : PyVal → Bool
  | PyVal.none => false
  | PyVal.bool b => b
  | PyVal.num q => q != 0
  | PyVal.str s => s != ""
  | PyVal.list xs => !xs.isEmpty
  | PyVal.dict es => !es.isEmpty

/-- Python `a or b`: `a` when truthy, else `b`. -/
def pyOr (a b : PyVal) : PyVal :=
  if pyTruthy a then a else b

/-- Python `str(x)`.  `str` of a string is the string itself; the textual
rendering of the other value classes is abstracted (no claim depends on
the rendering, only on the result being a string). -/
def pyStr : PyVal → String
  | PyVal.none => "None"
  | PyVal.bool b => if b then "True" else "False"
  | PyVal.num q => toString q
  | PyVal.str s => s
  | PyVal.list _ => "<list repr>"
  | PyVal.dict _ => "<dict repr>"

/-- Simplified decimal grammar for Python `float(string)`: optional sign,
digits, optional fractional part.  (Python additionally accepts
exponents, `inf`, `nan` and surrounding whitespace; no claim depends on
the string case.) -/
def parseDecimal (s : String) : Option Rat :=
  let core := fun (t : String) =>
    match t.splitOn "." with
    | [i] => (i.toNat?).map (fun n => (n : Rat))
    | [i, f] =>
      match i.toNat?, f.toNat? with
      | some a, some b => some ((a : Rat) + (b : Rat) / ((10 : Rat) ^ f.length))
      | _, _ => Option.none
    | _ => Option.none
  if s.startsWith "-" then (core (s.drop 1)).map (fun q => -q)
  else if s.startsWith "+" then core (s.drop 1)
  else core s

/-- Python `float(x)`: numbers pass through, booleans become 0/1,
numeric strings parse, every other value raises `TypeError`. -/
def pyFloat : PyVal → Except String Rat
  | PyVal.num q => Except.ok q
  | PyVal.bool b => Except.ok (if b then 1 else 0)
  | PyVal.str s =>
    match parseDecimal s with
    | some q => Except.ok q
    | Option.none => Except.error ("could not convert string to float: " ++ s)
  | _ => Except.error "float() argument must be a string or a real number"

/-- Python `x.get(k, default)`: defaulted key lookup on a dict; raises
`AttributeError` when `x` is not a dict. -/
def pyGet (v : PyVal) (k : String) (d : PyVal) : Except String PyVal :=
  match v with
  | PyVal.dict es => Except.ok ((es.lookup k).getD d)
  | _ => Except.error "AttributeError: object has no attribute get"

/-- Python `for x in v`: lists iterate elements, strings iterate
one-character strings, dicts iterate keys; other values raise
`TypeError`. -/
def pyIter : PyVal → Except String (List PyVal)
  | PyVal.list xs => Except.ok xs
  | PyVal.str s => Except.ok (s.toList.map (fun c => PyVal.str (String.singleton c)))
  | PyVal.dict es => Except.ok (es.map (fun kv => PyVal.str kv.1))
  | _ => Except.error "TypeError: object is not iterable"

/-- Top-level key lookup on a dict value (`none` for non-dicts). -/
def dictLookup (v : PyVal) (k : String) : Option PyVal :=
  match v with
  | PyVal.dict es => es.lookup k
  | _ => Option.none

/-- `class Message(BaseModel)`: one conversation message. -/
structure Message where
  role : String
  content : String

/-- `class AddMemoryRequest(BaseModel)`. `metadata: Optional[Dict] = None`
is an optional dict, embedded as an optional association list. -/
structure AddMemoryRequest where
  messages : List Message
  user_id : String := "default_user"
  metadata : Option (List (String × PyVal)) := Option.none

/-- `class SearchMemoryRequest(BaseModel)`. -/
structure SearchMemoryRequest where
  query : String
  user_id : String := "default_user"
  limit : Int := 5

/-- One call into the mem0 engine, with the exact arguments passed. -/
inductive EngineCall where
  | add : List PyVal → String → PyVal → EngineCall
  | search : String → String → Int → EngineCall
  | getAll : String → EngineCall
  | deleteAll : String → EngineCall

/-- The mem0 engine as an oracle: each call either returns a Python value
or raises an exception carrying a message. -/
def Engine : Type := EngineCall → Except String PyVal

/-- An HTTP response: a 200 body, or an `HTTPException(status_code, detail)`. -/
inductive HttpResponse where
  | ok : PyVal → HttpResponse
  | error : Nat → String → HttpResponse

/-- A handler outcome: the engine calls made while serving the request,
and the response. -/
def Outcome : Type := List EngineCall × HttpResponse

/-- `{"role": msg.role, "content": msg.content}` (line 129). -/
def messageToPy (m : Message) : PyVal :=
  PyVal.dict [("role", PyVal.str m.role), ("content", PyVal.str m.content)]

/-- The `Optional[Dict]` field `request.metadata` as a Python value
(`None` when absent). -/
def optMetadataToPy : Option (List (String × PyVal)) → PyVal
  | Option.none => PyVal.none
  | some es => PyVal.dict es

/-- The arguments `add_memory` passes to `memory.add` (lines 128–140):
the re-built message dicts in request order, the user id, and
`request.metadata or {}`. -/
def addCall (req : AddMemoryRequest) : EngineCall :=
  EngineCall.add (req.messages.map messageToPy) req.user_id
    (pyOr (optMetadataToPy req.metadata) (PyVal.dict []))

/-- The arguments `search_memories` passes to `memory.search`
(lines 166–170). -/
def searchCall (req : SearchMemoryRequest) : EngineCall :=
  EngineCall.search req.query req.user_id req.limit

/-- Normalization of one search record (lines 182–187):
`{"id": str(result.get("id", "")), "memory": str(result.get("memory", "")),
"score": float(result.get("score", 0.0)), "metadata": result.get("metadata", {})}`. -/
def normalizeSearchRecord (result : PyVal) : Except String PyVal :=
  match pyGet result "id" (PyVal.str "") with
  | Except.error e => Except.error e
  | Except.ok idv =>
    match pyGet result "memory" (PyVal.str "") with
    | Except.error e => Except.error e
    | Except.ok memv =>
      match pyGet result "score" (PyVal.num 0) with
      | Except.error e => Except.error e
      | Except.ok scorev =>
        match pyFloat scorev with
        | Except.error e => Except.error e
        | Except.ok q =>
          match pyGet result "metadata" (PyVal.dict []) with
          | Except.error e => Except.error e
          | Except.ok metav =>
            Except.ok (PyVal.dict
              [("id", PyVal.str (pyStr idv)), ("memory", PyVal.str (pyStr memv)),
               ("score", PyVal.num q), ("metadata", metav)])

/-- Normalization of one listing record (lines 223–227): as for search
but with no `score` entry. -/
def normalizeAllRecord (result : PyVal) : Except String PyVal :=
  match pyGet result "id" (PyVal.str "") with
  | Except.error e => Except.error e
  | Except.ok idv =>
    match pyGet result "memory" (PyVal.str "") with
    | Except.error e => Except.error e
    | Except.ok memv =>
      match pyGet result "metadata" (PyVal.dict []) with
      | Except.error e => Except.error e
      | Except.ok metav =>
        Except.ok (PyVal.dict
          [("id", PyVal.str (pyStr idv)), ("memory", PyVal.str (pyStr memv)),
           ("metadata", metav)])

/-- The `result_list` selection (lines 176–179 and 217–220): a dict with
a `results` key yields that entry, a list yields itself, anything else
yields `[]`. -/
def selectResultList (results : PyVal) : PyVal :=
  match results with
  | PyVal.dict es =>
    match es.lookup "results" with
    | some v => v
    | Option.none => PyVal.list []
  | PyVal.list xs => PyVal.list xs
  | _ => PyVal.list []

/-- The `for result in result_list: memories.append(...)` loop, for a
given per-record normalizer: the first raised exception aborts the loop. -/
def normalizeList (f : PyVal → Except String PyVal) :
    List PyVal → Except String (List PyVal)
  | [] => Except.ok []
  | r :: rs =>
    match f r with
    | Except.error e => Except.error e
    | Except.ok out =>
      match normalizeList f rs with
      | Except.error e => Except.error e
      | Except.ok outs => Except.ok (out :: outs)

/-- The whole `memories = []; if results: ...` normalization block
(lines 173–187 and 215–227). -/
def normalizeResults (f : PyVal → Except String PyVal) (results : PyVal) :
    Except String (List PyVal) :=
  if pyTruthy results then
    match pyIter (selectResultList results) with
    | Except.error e => Except.error e
    | Except.ok items => normalizeList f items
  else Except.ok []

/-- `{"success": True, "count": len(memories), "memories": memories}`
(lines 191–195 and 231–235). -/
def listSuccessBody (ms : List PyVal) : PyVal :=
  PyVal.dict
    [("success", PyVal.bool true), ("count", PyVal.num (ms.length : Rat)),
     ("memories", PyVal.list ms)]

/-- `GET /` (lines 101–108): liveness; never calls the engine. -/
def root (memory : Option Engine) : Outcome :=
  ([], HttpResponse.ok (PyVal.dict
    [("service", PyVal.str "ProjectZ Mem0 Service"),
     ("status", PyVal.str (if memory.isSome then "running" else "error")),
     ("version", PyVal.str "1.0.0")]))

/-- `GET /health` (lines 110–115). -/
def health (memory : Option Engine) : Outcome :=
  match memory with
  | Option.none => ([], HttpResponse.error 503 "Mem0 not initialized")
  | some _ => ([], HttpResponse.ok (PyVal.dict [("status", PyVal.str "healthy")]))

/-- `POST /add` (lines 117–151). -/
def addMemory (memory : Option Engine) (req : AddMemoryRequest) : Outcome :=
  match memory with
  | Option.none => ([], HttpResponse.error 503 "Mem0 not initialized")
  | some eng =>
    ([addCall req],
      match eng (addCall req) with
      | Except.error e => HttpResponse.error 500 e
      | Except.ok result =>
        HttpResponse.ok (PyVal.dict
          [("success", PyVal.bool true), ("result", result),
           ("message", PyVal.str "Memories extracted and stored")]))

/-- `POST /search` (lines 153–198). -/
def searchMemories (memory : Option Engine) (req : SearchMemoryRequest) : Outcome :=
  match memory with
  | Option.none => ([], HttpResponse.error 503 "Mem0 not initialized")
  | some eng =>
    ([searchCall req],
      match eng (searchCall req) with
      | Except.error e => HttpResponse.error 500 e
      | Except.ok results =>
        match normalizeResults normalizeSearchRecord results with
        | Except.error e => HttpResponse.error 500 e
        | Except.ok memories => HttpResponse.ok (listSuccessBody memories))

/-- `GET /all` (lines 200–238). -/
def getAllMemories (memory : Option Engine) (user_id : String) : Outcome :=
  match memory with
  | Option.none => ([], HttpResponse.error 503 "Mem0 not initialized")
  | some eng =>
    ([EngineCall.getAll user_id],
      match eng (EngineCall.getAll user_id) with
      | Except.error e => HttpResponse.error 500 e
      | Except.ok results =>
        match normalizeResults normalizeAllRecord results with
        | Except.error e => HttpResponse.error 500 e
        | Except.ok memories => HttpResponse.ok (listSuccessBody memories))

/-- `DELETE /clear` (lines 240–262). -/
def clearMemories (memory : Option Engine) (user_id : String) : Outcome :=
  match memory with
  | Option.none => ([], HttpResponse.error 503 "Mem0 not initialized")
  | some eng =>
    ([EngineCall.deleteAll user_id],
      match eng (EngineCall.deleteAll user_id) with
      | Except.error e => HttpResponse.error 500 e
      | Except.ok _ =>
        HttpResponse.ok (PyVal.dict
          [("success", PyVal.bool true),
           ("message", PyVal.str "All memories cleared")]))

/-! ### Helper lemmas -/

/-- On both accepted reply shapes the normalization block reduces to the
record loop over the underlying sequence. -/
theorem normalizeResults_accepted (f : PyVal → Except String PyVal) (rs : List PyVal) :
    normalizeResults f (PyVal.dict [("results", PyVal.list rs)]) = normalizeList f rs ∧
    normalizeResults f (PyVal.list rs) = normalizeList f rs := by
  constructor
  · rfl
  · cases rs <;> rfl

/-- Characterization of search-record normalization on a dict record:
`id`/`memory` go through `str` with `""` defaults, `score` through
`float` with a `0.0` default, and `metadata` is the looked-up value with
a `{}` default, passed through unchanged. -/
theorem normalizeSearchRecord_dict_eq (entries : List (String × PyVal)) (sc : Rat)
    (h : pyFloat ((entries.lookup "score").getD (PyVal.num 0)) = Except.ok sc) :
    normalizeSearchRecord (PyVal.dict entries) =
      Except.ok (PyVal.dict
        [("id", PyVal.str (pyStr ((entries.lookup "id").getD (PyVal.str "")))),
         ("memory", PyVal.str (pyStr ((entries.lookup "memory").getD (PyVal.str "")))),
         ("score", PyVal.num sc),
         ("metadata", (entries.lookup "metadata").getD (PyVal.dict []))]) := by
  simp only [normalizeSearchRecord, pyGet, h]

/-- A search response is a 200 exactly when the engine call returned a
value whose normalization succeeded; the body is then the standard
success body over the normalized records. -/
theorem searchMemories_ok_iff (eng : Engine) (req : SearchMemoryRequest) (body : PyVal) :
    (searchMemories (some eng) req).2 = HttpResponse.ok body ↔
      ∃ v ms, eng (searchCall req) = Except.ok v ∧
        normalizeResults normalizeSearchRecord v = Except.ok ms ∧
        body = listSuccessBody ms := by
  constructor
  · intro h
    cases hc : eng (searchCall req) with
    | error e => simp [searchMemories, hc] at h
    | ok v =>
      cases hn : normalizeResults normalizeSearchRecord v with
      | error e => simp [searchMemories, hc, hn] at h
      | ok ms =>
        refine ⟨v, ms, rfl, hn, ?_⟩
        simp [searchMemories, hc, hn] at h
        exact h.symm
  · rintro ⟨v, ms, hc, hn, rfl⟩
    simp [searchMemories, hc, hn]

/-- A listing response is a 200 exactly when the engine call returned a
value whose normalization succeeded. -/
theorem getAllMemories_ok_iff (eng : Engine) (uid : String) (body : PyVal) :
    (getAllMemories (some eng) uid).2 = HttpResponse.ok body ↔
      ∃ v ms, eng (EngineCall.getAll uid) = Except.ok v ∧
        normalizeResults normalizeAllRecord v = Except.ok ms ∧
        body = listSuccessBody ms := by
  constructor
  · intro h
    cases hc : eng (EngineCall.getAll uid) with
    | error e => simp [getAllMemories, hc] at h
    | ok v =>
      cases hn : normalizeResults normalizeAllRecord v with
      | error e => simp [getAllMemories, hc, hn] at h
      | ok ms =>
        refine ⟨v, ms, rfl, hn, ?_⟩
        simp [getAllMemories, hc, hn] at h
        exact h.symm
  · rintro ⟨v, ms, hc, hn, rfl⟩
    simp [getAllMemories, hc, hn]

/-- A successful record loop yields one output per input, in order. -/
theorem normalizeList_ok_get (f : PyVal → Except String PyVal) (rs : List PyVal) :
    ∀ ms, normalizeList f rs = Except.ok ms →
      ms.length = rs.length ∧
      ∀ i : Nat, i < rs.length →
        f (rs.getD i PyVal.none) = Except.ok (ms.getD i PyVal.none) := by
  induction rs with
  | nil =>
    intro ms h
    simp [normalizeList] at h
    subst h
    simp
  | cons r rs ih =>
    intro ms h
    simp only [normalizeList] at h
    cases hf : f r with
    | error e => rw [hf] at h; simp at h
    | ok out =>
      rw [hf] at h
      cases hn : normalizeList f rs with
      | error e => rw [hn] at h; simp at h
      | ok outs =>
        rw [hn] at h
        simp at h
        subst h
        obtain ⟨hlen, hget⟩ := ih outs hn
        refine ⟨by simp [hlen], ?_⟩
        intro i hi
        cases i with
        | zero => simpa using hf
        | succ j =>
          have hj : j < rs.length := by simpa using hi
          simpa using hget j hj

/-- Every output of a successful record loop is the normalization of
some input record. -/
theorem normalizeList_ok_mem (f : PyVal → Except String PyVal) (rs : List PyVal) :
    ∀ ms, normalizeList f rs = Except.ok ms →
      ∀ m ∈ ms, ∃ r, r ∈ rs ∧ f r = Except.ok m := by
  induction rs with
  | nil =>
    intro ms h m hm
    simp [normalizeList] at h
    subst h
    simp at hm
  | cons r rs ih =>
    intro ms h m hm
    simp only [normalizeList] at h
    cases hf : f r with
    | error e => rw [hf] at h; simp at h
    | ok out =>
      rw [hf] at h
      cases hn : normalizeList f rs with
      | error e => rw [hn] at h; simp at h
      | ok outs =>
        rw [hn] at h
        simp at h
        subst h
        rcases List.mem_cons.mp hm with hm0 | hmrest
        · exact ⟨r, List.mem_cons_self r rs, by rw [hm0]; exact hf⟩
        · obtain ⟨r', hr', hfr'⟩ := ih outs hn m hmrest
          exact ⟨r', List.mem_cons_of_mem r hr', hfr'⟩

/-- Every output of a successful normalization block is the
normalization of some record. -/
theorem normalizeResults_ok_mem (f : PyVal → Except String PyVal) (v : PyVal)
    (ms : List PyVal) (h : normalizeResults f v = Except.ok ms) :
    ∀ m ∈ ms, ∃ r, f r = Except.ok m := by
  unfold normalizeResults at h
  cases htv : pyTruthy v with
  | false => rw [htv] at h; simp at h; subst h; simp
  | true =>
    rw [htv] at h
    simp only [if_true] at h
    cases hit : pyIter (selectResultList v) with
    | error e => rw [hit] at h; simp at h
    | ok items =>
      rw [hit] at h
      intro m hm
      obtain ⟨r, _, hr⟩ := normalizeList_ok_mem f items ms h m hm
      exact ⟨r, hr⟩

/-- The standard success body determines its record list. -/
theorem listSuccessBody_inj {ms ms' : List PyVal}
    (h : listSuccessBody ms = listSuccessBody ms') : ms = ms' := by
  simp [listSuccessBody] at h
  exact h.2

/-- Successful search-record normalization forces a dict input and fully
determines the output fields. -/
theorem normalizeSearchRecord_ok (r out : PyVal)
    (h : normalizeSearchRecord r = Except.ok out) :
    ∃ (entries : List (String × PyVal)) (q : Rat), r = PyVal.dict entries ∧
      out = PyVal.dict
        [("id", PyVal.str (pyStr ((entries.lookup "id").getD (PyVal.str "")))),
         ("memory", PyVal.str (pyStr ((entries.lookup "memory").getD (PyVal.str "")))),
         ("score", PyVal.num q),
         ("metadata", (entries.lookup "metadata").getD (PyVal.dict []))] := by
  cases r with
  | dict es =>
    cases hq : pyFloat ((es.lookup "score").getD (PyVal.num 0)) with
    | error e =>
      simp only [normalizeSearchRecord, pyGet] at h
      rw [hq] at h
      simp at h
    | ok q =>
      refine ⟨es, q, rfl, ?_⟩
      rw [normalizeSearchRecord_dict_eq es q hq] at h
      simpa using h.symm
  | none => simp [normalizeSearchRecord, pyGet] at h
  | bool b => simp [normalizeSearchRecord, pyGet] at h
  | num q => simp [normalizeSearchRecord, pyGet] at h
  | str s => simp [normalizeSearchRecord, pyGet] at h
  | list xs => simp [normalizeSearchRecord, pyGet] at h

/-- Successful listing-record normalization forces a dict input and
fully determines the output fields; in particular no `score` entry. -/
theorem normalizeAllRecord_ok (r out : PyVal)
    (h : normalizeAllRecord r = Except.ok out) :
    ∃ entries : List (String × PyVal), r = PyVal.dict entries ∧
      out = PyVal.dict
        [("id", PyVal.str (pyStr ((entries.lookup "id").getD (PyVal.str "")))),
         ("memory", PyVal.str (pyStr ((entries.lookup "memory").getD (PyVal.str "")))),
         ("metadata", (entries.lookup "metadata").getD (PyVal.dict []))] := by
  cases r with
  | dict es =>
    refine ⟨es, rfl, ?_⟩
    rw [show normalizeAllRecord (PyVal.dict es) =
      Except.ok (PyVal.dict
        [("id", PyVal.str (pyStr ((es.lookup "id").getD (PyVal.str "")))),
         ("memory", PyVal.str (pyStr ((es.lookup "memory").getD (PyVal.str "")))),
         ("metadata", (es.lookup "metadata").getD (PyVal.dict []))]) from rfl] at h
    simpa using h.symm
  | none => simp [normalizeAllRecord, pyGet] at h
  | bool b => simp [normalizeAllRecord, pyGet] at h
  | num q => simp [normalizeAllRecord, pyGet] at h
  | str s => simp [normalizeAllRecord, pyGet] at h
  | list xs => simp [normalizeAllRecord, pyGet] at h

/-! ### Claims -/

/-- C1: when the engine handle is `None` (initialization failed), each of
`/health`, `/add`, `/search`, `/all`, `/clear` returns a 503
ServiceUnavailable response and makes no engine call, while the liveness
check `/` still answers 200 with status `error`. -/
theorem unavailable_engine_short_circuits :
    health Option.none = ([], HttpResponse.error 503 "Mem0 not initialized") ∧
    (∀ req : AddMemoryRequest,
      addMemory Option.none req = ([], HttpResponse.error 503 "Mem0 not initialized")) ∧
    (∀ req : SearchMemoryRequest,
      searchMemories Option.none req = ([], HttpResponse.error 503 "Mem0 not initialized")) ∧
    (∀ uid : String,
      getAllMemories Option.none uid = ([], HttpResponse.error 503 "Mem0 not initialized")) ∧
    (∀ uid : String,
      clearMemories Option.none uid = ([], HttpResponse.error 503 "Mem0 not initialized")) ∧
    root Option.none = ([], HttpResponse.ok (PyVal.dict
      [("service", PyVal.str "ProjectZ Mem0 Service"), ("status", PyVal.str "error"),
       ("version", PyVal.str "1.0.0")])) :=
  ⟨rfl, fun _ => rfl, fun _ => rfl, fun _ => rfl, fun _ => rfl, rfl⟩

/-- C2: for every sequence `s` of records, the search and listing
normalizations produce the same `memories` output whether the engine
reply is the mapping `{"results": s}` or the bare sequence `s`. -/
theorem dual_shape_normalization_agrees (s : List PyVal) :
    normalizeResults normalizeSearchRecord (PyVal.dict [("results", PyVal.list s)]) =
      normalizeResults normalizeSearchRecord (PyVal.list s) ∧
    normalizeResults normalizeAllRecord (PyVal.dict [("results", PyVal.list s)]) =
      normalizeResults normalizeAllRecord (PyVal.list s) := by
  refine ⟨?_, ?_⟩ <;>
    rw [(normalizeResults_accepted _ s).1, (normalizeResults_accepted _ s).2]

/-- Field-coercion property exactly as claim C3 states it: every
successfully normalized search record would have its `id` and `memory`
as strings, its `score` as a number, and its `metadata` coerced to a
mapping. -/
def searchRecordCoercionClaim : Prop :=
  ∀ r out : PyVal, normalizeSearchRecord r = Except.ok out →
    ∃ (i m : String) (q : Rat) (meta : List (String × PyVal)),
      out = PyVal.dict
        [("id", PyVal.str i), ("memory", PyVal.str m),
         ("score", PyVal.num q), ("metadata", PyVal.dict meta)]

/-- C3 counterexample: a record whose `metadata` entry is present but is
the string "tag" normalizes successfully with that string passed through
unchanged, so the normalized `metadata` is not a mapping and the claimed
coercion fails. -/
theorem metadata_not_coerced_to_mapping : ¬ searchRecordCoercionClaim := by
  intro h
  obtain ⟨i, m, q, meta, heq⟩ :=
    h (PyVal.dict [("metadata", PyVal.str "tag")])
      (PyVal.dict [("id", PyVal.str ""), ("memory", PyVal.str ""),
        ("score", PyVal.num 0), ("metadata", PyVal.str "tag")]) rfl
  simp at heq

/-- C3 (amended): for a dict record, normalization coerces `id` and
`memory` through `str` (empty string when the key is absent) and `score`
through `float` (0.0 when the key is absent), but `metadata` is only
defaulted to the empty mapping when absent and is passed through
unchanged — not coerced to a mapping — when present. -/
theorem normalizeSearchRecord_fields (entries : List (String × PyVal)) (sc : Rat)
    (h : pyFloat ((entries.lookup "score").getD (PyVal.num 0)) = Except.ok sc) :
    normalizeSearchRecord (PyVal.dict entries) =
      Except.ok (PyVal.dict
        [("id", PyVal.str (pyStr ((entries.lookup "id").getD (PyVal.str "")))),
         ("memory", PyVal.str (pyStr ((entries.lookup "memory").getD (PyVal.str "")))),
         ("score", PyVal.num sc),
         ("metadata", (entries.lookup "metadata").getD (PyVal.dict []))]) :=
  normalizeSearchRecord_dict_eq entries sc h

/-- Witness for the amended C3 theorem at a concrete record: absent
`id`/`memory` default to `""`, absent `score` defaults to `0.0`, and a
present string `metadata` passes through unchanged. -/
theorem normalizeSearchRecord_fields_witness :
    normalizeSearchRecord (PyVal.dict [("metadata", PyVal.str "tag")]) =
      Except.ok (PyVal.dict
        [("id", PyVal.str ""), ("memory", PyVal.str ""),
         ("score", PyVal.num 0), ("metadata", PyVal.str "tag")]) :=
  normalizeSearchRecord_fields [("metadata", PyVal.str "tag")] 0 rfl

/-- C4: `/add` with a ready engine makes exactly one engine call: the
extract-and-store call whose messages are the request messages rebuilt
as role/content dicts in the exact request order, whose user id is the
request user id, and whose metadata is the request metadata with `None`
defaulted to the empty mapping. -/
theorem add_call_arguments (eng : Engine) (req : AddMemoryRequest) :
    (addMemory (some eng) req).1 =
      [EngineCall.add (req.messages.map messageToPy) req.user_id
        (PyVal.dict (req.metadata.getD []))] := by
  cases hm : req.metadata with
  | none => simp [addMemory, addCall, optMetadataToPy, pyOr, pyTruthy, hm]
  | some d => cases d <;> simp [addMemory, addCall, optMetadataToPy, pyOr, pyTruthy, hm]

/-- Error-propagation property exactly as claim C5 states it: for every
operation with a ready engine, an engine exception yields a 500 carrying
its message, and otherwise the operation returns a success response. -/
def enginePropagationClaim : Prop :=
  (∀ (eng : Engine) (req : AddMemoryRequest) (e : String),
      eng (addCall req) = Except.error e →
      (addMemory (some eng) req).2 = HttpResponse.error 500 e) ∧
  (∀ (eng : Engine) (req : AddMemoryRequest) (v : PyVal),
      eng (addCall req) = Except.ok v →
      ∃ body, (addMemory (some eng) req).2 = HttpResponse.ok body) ∧
  (∀ (eng : Engine) (req : SearchMemoryRequest) (e : String),
      eng (searchCall req) = Except.error e →
      (searchMemories (some eng) req).2 = HttpResponse.error 500 e) ∧
  (∀ (eng : Engine) (req : SearchMemoryRequest) (v : PyVal),
      eng (searchCall req) = Except.ok v →
      ∃ body, (searchMemories (some eng) req).2 = HttpResponse.ok body) ∧
  (∀ (eng : Engine) (uid : String) (e : String),
      eng (EngineCall.getAll uid) = Except.error e →
      (getAllMemories (some eng) uid).2 = HttpResponse.error 500 e) ∧
  (∀ (eng : Engine) (uid : String) (v : PyVal),
      eng (EngineCall.getAll uid) = Except.ok v →
      ∃ body, (getAllMemories (some eng) uid).2 = HttpResponse.ok body) ∧
  (∀ (eng : Engine) (uid : String) (e : String),
      eng (EngineCall.deleteAll uid) = Except.error e →
      (clearMemories (some eng) uid).2 = HttpResponse.error 500 e) ∧
  (∀ (eng : Engine) (uid : String) (v : PyVal),
      eng (EngineCall.deleteAll uid) = Except.ok v →
      ∃ body, (clearMemories (some eng) uid).2 = HttpResponse.ok body)

/-- An engine reply whose single record carries `score = None`:
`float(None)` raises a TypeError inside the normalization loop. -/
def badScoreReply : PyVal :=
  PyVal.dict [("results", PyVal.list [PyVal.dict [("score", PyVal.none)]])]

/-- C5 counterexample: with an engine that returns `badScoreReply`
without raising, `/search` still answers 500 (the `float(None)`
TypeError raised by the normalization loop), so a successful engine call
does not guarantee a success response. -/
theorem engine_ok_not_always_success : ¬ enginePropagationClaim := by
  intro h
  obtain ⟨body, hb⟩ :=
    h.2.2.2.1 (fun _ => Except.ok badScoreReply) ⟨"q", "u", 5⟩ badScoreReply rfl
  have hb2 : HttpResponse.error 500 "float() argument must be a string or a real number" =
      HttpResponse.ok body := hb
  exact HttpResponse.noConfusion hb2

/-- C5 (amended): any engine exception is surfaced as a 500 carrying its
message, with exactly one engine call (no retry) and no partial result;
on engine success `/add` and `/clear` return their success responses,
and `/search` and `/all` return the success response when the reply
normalizes, while a normalization exception (e.g. a record whose score
cannot be coerced to float) is also surfaced as a 500 carrying that
message. -/
theorem engine_errors_become_500 :
    (∀ (eng : Engine) (req : AddMemoryRequest) (e : String),
        eng (addCall req) = Except.error e →
        addMemory (some eng) req = ([addCall req], HttpResponse.error 500 e)) ∧
    (∀ (eng : Engine) (req : AddMemoryRequest) (v : PyVal),
        eng (addCall req) = Except.ok v →
        addMemory (some eng) req = ([addCall req], HttpResponse.ok (PyVal.dict
          [("success", PyVal.bool true), ("result", v),
           ("message", PyVal.str "Memories extracted and stored")]))) ∧
    (∀ (eng : Engine) (req : SearchMemoryRequest) (e : String),
        eng (searchCall req) = Except.error e →
        searchMemories (some eng) req = ([searchCall req], HttpResponse.error 500 e)) ∧
    (∀ (eng : Engine) (req : SearchMemoryRequest) (v : PyVal) (ms : List PyVal),
        eng (searchCall req) = Except.ok v →
        normalizeResults normalizeSearchRecord v = Except.ok ms →
        searchMemories (some eng) req =
          ([searchCall req], HttpResponse.ok (listSuccessBody ms))) ∧
    (∀ (eng : Engine) (req : SearchMemoryRequest) (v : PyVal) (e : String),
        eng (searchCall req) = Except.ok v →
        normalizeResults normalizeSearchRecord v = Except.error e →
        searchMemories (some eng) req = ([searchCall req], HttpResponse.error 500 e)) ∧
    (∀ (eng : Engine) (uid : String) (e : String),
        eng (EngineCall.getAll uid) = Except.error e →
        getAllMemories (some eng) uid =
          ([EngineCall.getAll uid], HttpResponse.error 500 e)) ∧
    (∀ (eng : Engine) (uid : String) (v : PyVal) (ms : List PyVal),
        eng (EngineCall.getAll uid) = Except.ok v →
        normalizeResults normalizeAllRecord v = Except.ok ms →
        getAllMemories (some eng) uid =
          ([EngineCall.getAll uid], HttpResponse.ok (listSuccessBody ms))) ∧
    (∀ (eng : Engine) (uid : String) (v : PyVal) (e : String),
        eng (EngineCall.getAll uid) = Except.ok v →
        normalizeResults normalizeAllRecord v = Except.error e →
        getAllMemories (some eng) uid =
          ([EngineCall.getAll uid], HttpResponse.error 500 e)) ∧
    (∀ (eng : Engine) (uid : String) (e : String),
        eng (EngineCall.deleteAll uid) = Except.error e →
        clearMemories (some eng) uid =
          ([EngineCall.deleteAll uid], HttpResponse.error 500 e)) ∧
    (∀ (eng : Engine) (uid : String) (v : PyVal),
        eng (EngineCall.deleteAll uid) = Except.ok v →
        clearMemories (some eng) uid =
          ([EngineCall.deleteAll uid], HttpResponse.ok (PyVal.dict
            [("success", PyVal.bool true),
             ("message", PyVal.str "All memories cleared")]))) := by
  refine ⟨?_, ?_, ?_, ?_, ?_, ?_, ?_, ?_, ?_, ?_⟩
  · intro eng req e hc; simp [addMemory, hc]
  · intro eng req v hc; simp [addMemory, hc]
  · intro eng req e hc; simp [searchMemories, hc]
  · intro eng req v ms hc hn; simp [searchMemories, hc, hn]
  · intro eng req v e hc hn; simp [searchMemories, hc, hn]
  · intro eng uid e hc; simp [getAllMemories, hc]
  · intro eng uid v ms hc hn; simp [getAllMemories, hc, hn]
  · intro eng uid v e hc hn; simp [getAllMemories, hc, hn]
  · intro eng uid e hc; simp [clearMemories, hc]
  · intro eng uid v hc; simp [clearMemories, hc]

/-- Witness for the amended C5 theorem: a concrete engine exception on
`/add` surfaces as a 500 with the same message after one call. -/
theorem engine_errors_become_500_witness :
    addMemory (some (fun _ => Except.error "boom")) ⟨[], "u", Option.none⟩ =
      ([addCall ⟨[], "u", Option.none⟩], HttpResponse.error 500 "boom") :=
  engine_errors_become_500.1 (fun _ => Except.error "boom") ⟨[], "u", Option.none⟩ "boom" rfl

/-- Does the engine reply carry a top-level `results` key? -/
def hasResultsKey : PyVal → Bool
  | PyVal.dict es => (es.lookup "results").isSome
  | _ => false

/-- Is the engine reply a (Python) list? -/
def isPyList : PyVal → Bool
  | PyVal.list _ => true
  | _ => false

/-- C6: an engine reply to search or list that is in neither accepted
shape (no dict `results` key, not a list) is coerced to the empty
sequence: normalization succeeds with no records, and the request
answers 200 with success true, count 0 and empty memories. -/
theorem unrecognized_shape_empty_success (v : PyVal)
    (h1 : hasResultsKey v = false) (h2 : isPyList v = false) :
    normalizeResults normalizeSearchRecord v = Except.ok [] ∧
    normalizeResults normalizeAllRecord v = Except.ok [] ∧
    (∀ (eng : Engine) (req : SearchMemoryRequest),
      eng (searchCall req) = Except.ok v →
      (searchMemories (some eng) req).2 = HttpResponse.ok (listSuccessBody [])) ∧
    (∀ (eng : Engine) (uid : String),
      eng (EngineCall.getAll uid) = Except.ok v →
      (getAllMemories (some eng) uid).2 = HttpResponse.ok (listSuccessBody [])) := by
  have hsel : selectResultList v = PyVal.list [] := by
    cases v with
    | dict es =>
      cases hl : es.lookup "results" with
      | none => simp [selectResultList, hl]
      | some w =>
        exfalso
        rw [show hasResultsKey (PyVal.dict es) = (es.lookup "results").isSome from rfl,
          hl] at h1
        simp at h1
    | list xs => exact absurd h2 (by simp [isPyList])
    | none => rfl
    | bool b => rfl
    | num q => rfl
    | str s => rfl
  have hnorm : ∀ f, normalizeResults f v = Except.ok [] := by
    intro f
    unfold normalizeResults
    rw [hsel]
    cases htv : pyTruthy v <;> simp [htv, pyIter, normalizeList]
  refine ⟨hnorm _, hnorm _, ?_, ?_⟩
  · intro eng req hc
    simp [searchMemories, hc, hnorm]
  · intro eng uid hc
    simp [getAllMemories, hc, hnorm]

/-- Witness for C6 at the concrete reply `"weird"` (a truthy value in
neither accepted shape). -/
theorem unrecognized_shape_empty_success_witness :
    hasResultsKey (PyVal.str "weird") = false ∧ isPyList (PyVal.str "weird") = false ∧
    normalizeResults normalizeSearchRecord (PyVal.str "weird") = Except.ok [] :=
  ⟨rfl, rfl, (unrecognized_shape_empty_success (PyVal.str "weird") rfl rfl).1⟩

/-- C7: every record in a 200 listing (`/all`) response body has no
top-level `score` entry, while every record in a 200 search response
body carries a numeric `score` entry. -/
theorem score_field_only_in_search :
    (∀ (eng : Engine) (uid : String) (ms : List PyVal),
        (getAllMemories (some eng) uid).2 = HttpResponse.ok (listSuccessBody ms) →
        ∀ m ∈ ms, dictLookup m "score" = Option.none) ∧
    (∀ (eng : Engine) (req : SearchMemoryRequest) (ms : List PyVal),
        (searchMemories (some eng) req).2 = HttpResponse.ok (listSuccessBody ms) →
        ∀ m ∈ ms, ∃ q : Rat, dictLookup m "score" = some (PyVal.num q)) := by
  constructor
  · intro eng uid ms h m hm
    obtain ⟨v, ms', hc, hn, hb⟩ := (getAllMemories_ok_iff eng uid _).mp h
    have hms : ms = ms' := listSuccessBody_inj hb
    subst hms
    obtain ⟨r, hr⟩ := normalizeResults_ok_mem _ v ms hn m hm
    obtain ⟨entries, _, hout⟩ := normalizeAllRecord_ok r m hr
    subst hout
    rfl
  · intro eng req ms h m hm
    obtain ⟨v, ms', hc, hn, hb⟩ := (searchMemories_ok_iff eng req _).mp h
    have hms : ms = ms' := listSuccessBody_inj hb
    subst hms
    obtain ⟨r, hr⟩ := normalizeResults_ok_mem _ v ms hn m hm
    obtain ⟨entries, q, _, hout⟩ := normalizeSearchRecord_ok r m hr
    subst hout
    exact ⟨q, rfl⟩

/-- Witness for C7: a concrete listing of one record has no `score`
entry in its normalized output. -/
theorem score_field_only_in_search_witness :
    dictLookup (PyVal.dict [("id", PyVal.str ""), ("memory", PyVal.str ""),
      ("metadata", PyVal.dict [])]) "score" = Option.none :=
  score_field_only_in_search.1 (fun _ => Except.ok (PyVal.list [PyVal.dict []])) "u"
    [PyVal.dict [("id", PyVal.str ""), ("memory", PyVal.str ""),
      ("metadata", PyVal.dict [])]]
    rfl
    (PyVal.dict [("id", PyVal.str ""), ("memory", PyVal.str ""),
      ("metadata", PyVal.dict [])])
    (List.mem_singleton.mpr rfl)

/-- C8: with a ready engine whose delete-all call succeeds, `/clear`
makes exactly one engine call — delete-all for the given user id — and
returns the fixed success response, independently of prior state. -/
theorem clear_invokes_delete_all (eng : Engine) (uid : String) (v : PyVal)
    (h : eng (EngineCall.deleteAll uid) = Except.ok v) :
    clearMemories (some eng) uid =
      ([EngineCall.deleteAll uid],
        HttpResponse.ok (PyVal.dict
          [("success", PyVal.bool true),
           ("message", PyVal.str "All memories cleared")])) := by
  simp [clearMemories, h]

/-- Witness for C8 at user id `alice` with an engine that deletes
nothing and returns `None`. -/
theorem clear_invokes_delete_all_witness :
    clearMemories (some (fun _ => Except.ok PyVal.none)) "alice" =
      ([EngineCall.deleteAll "alice"],
        HttpResponse.ok (PyVal.dict
          [("success", PyVal.bool true),
           ("message", PyVal.str "All memories cleared")])) :=
  clear_invokes_delete_all (fun _ => Except.ok PyVal.none) "alice" PyVal.none rfl

/-- C9: in every 200 response of `/search` and `/all`, the `count`
field equals the length of the `memories` sequence of the same body. -/
theorem count_equals_memories_length :
    (∀ (eng : Engine) (req : SearchMemoryRequest) (body : PyVal),
        (searchMemories (some eng) req).2 = HttpResponse.ok body →
        ∃ ms : List PyVal, dictLookup body "memories" = some (PyVal.list ms) ∧
          dictLookup body "count" = some (PyVal.num (ms.length : Rat))) ∧
    (∀ (eng : Engine) (uid : String) (body : PyVal),
        (getAllMemories (some eng) uid).2 = HttpResponse.ok body →
        ∃ ms : List PyVal, dictLookup body "memories" = some (PyVal.list ms) ∧
          dictLookup body "count" = some (PyVal.num (ms.length : Rat))) := by
  constructor
  · intro eng req body h
    obtain ⟨v, ms, hc, hn, hb⟩ := (searchMemories_ok_iff eng req body).mp h
    subst hb
    exact ⟨ms, rfl, rfl⟩
  · intro eng uid body h
    obtain ⟨v, ms, hc, hn, hb⟩ := (getAllMemories_ok_iff eng uid body).mp h
    subst hb
    exact ⟨ms, rfl, rfl⟩

/-- Witness for C9 with an engine returning the empty bare list. -/
theorem count_equals_memories_length_witness :
    ∃ ms : List PyVal,
      dictLookup (listSuccessBody []) "memories" = some (PyVal.list ms) ∧
      dictLookup (listSuccessBody []) "count" = some (PyVal.num (ms.length : Rat)) :=
  count_equals_memories_length.1 (fun _ => Except.ok (PyVal.list []))
    ⟨"q", "u", 5⟩ (listSuccessBody []) rfl

/-- Two engine records (empty dicts), more than a limit of 1. -/
def twoEmptyRecords : List PyVal := [PyVal.dict [], PyVal.dict []]

/-- The search normalization of the two empty records. -/
def twoNormalizedSearchRecords : List PyVal :=
  [PyVal.dict [("id", PyVal.str ""), ("memory", PyVal.str ""),
    ("score", PyVal.num 0), ("metadata", PyVal.dict [])],
   PyVal.dict [("id", PyVal.str ""), ("memory", PyVal.str ""),
    ("score", PyVal.num 0), ("metadata", PyVal.dict [])]]

/-- C10: whenever the engine reply to `/search` or `/all` is in an
accepted shape (dict with a `results` list `rs`, or the bare list `rs`)
and the response is a 200, the normalized `memories` sequence has
exactly one record per engine record and in engine order — index `i` of
the output is the normalization of index `i` of `rs` — with no
truncation to the request limit, no reordering and no filtering. -/
theorem accepted_shape_records_preserved :
    (∀ (eng : Engine) (req : SearchMemoryRequest) (rs ms : List PyVal),
        (eng (searchCall req) = Except.ok (PyVal.dict [("results", PyVal.list rs)]) ∨
          eng (searchCall req) = Except.ok (PyVal.list rs)) →
        (searchMemories (some eng) req).2 = HttpResponse.ok (listSuccessBody ms) →
        ms.length = rs.length ∧
          ∀ i : Nat, i < rs.length →
            normalizeSearchRecord (rs.getD i PyVal.none) =
              Except.ok (ms.getD i PyVal.none)) ∧
    (∀ (eng : Engine) (uid : String) (rs ms : List PyVal),
        (eng (EngineCall.getAll uid) = Except.ok (PyVal.dict [("results", PyVal.list rs)]) ∨
          eng (EngineCall.getAll uid) = Except.ok (PyVal.list rs)) →
        (getAllMemories (some eng) uid).2 = HttpResponse.ok (listSuccessBody ms) →
        ms.length = rs.length ∧
          ∀ i : Nat, i < rs.length →
            normalizeAllRecord (rs.getD i PyVal.none) =
              Except.ok (ms.getD i PyVal.none)) := by
  constructor
  · intro eng req rs ms hshape hok
    obtain ⟨v, ms', hc, hn, hb⟩ := (searchMemories_ok_iff eng req _).mp hok
    have hms : ms = ms' := listSuccessBody_inj hb
    subst hms
    rcases hshape with hs | hs
    · rw [hc] at hs
      simp at hs
      subst hs
      rw [(normalizeResults_accepted normalizeSearchRecord rs).1] at hn
      exact normalizeList_ok_get normalizeSearchRecord rs ms hn
    · rw [hc] at hs
      simp at hs
      subst hs
      rw [(normalizeResults_accepted normalizeSearchRecord rs).2] at hn
      exact normalizeList_ok_get normalizeSearchRecord rs ms hn
  · intro eng uid rs ms hshape hok
    obtain ⟨v, ms', hc, hn, hb⟩ := (getAllMemories_ok_iff eng uid _).mp hok
    have hms : ms = ms' := listSuccessBody_inj hb
    subst hms
    rcases hshape with hs | hs
    · rw [hc] at hs
      simp at hs
      subst hs
      rw [(normalizeResults_accepted normalizeAllRecord rs).1] at hn
      exact normalizeList_ok_get normalizeAllRecord rs ms hn
    · rw [hc] at hs
      simp at hs
      subst hs
      rw [(normalizeResults_accepted normalizeAllRecord rs).2] at hn
      exact normalizeList_ok_get normalizeAllRecord rs ms hn

/-- Witness for C10: a request with limit 1 against an engine returning
two records keeps both records in input order (no truncation). -/
theorem accepted_shape_records_preserved_witness :
    twoNormalizedSearchRecords.length = twoEmptyRecords.length ∧
    ∀ i : Nat, i < twoEmptyRecords.length →
      normalizeSearchRecord (twoEmptyRecords.getD i PyVal.none) =
        Except.ok (twoNormalizedSearchRecords.getD i PyVal.none) :=
  accepted_shape_records_preserved.1 (fun _ => Except.ok (PyVal.list twoEmptyRecords))
    ⟨"q", "u", 1⟩ twoEmptyRecords twoNormalizedSearchRecords (Or.inr rfl) rfl

end Mem0Service
